import Mathlib

/-!
Shallow embedding of the BDR conflict-detection / conflict-logging core
(bdr_conflict_logging.c, bdr_executor.c, bdr.h) and proofs about it.

PostgreSQL machine types are modelled as follows: TransactionId, XLogRecPtr,
Oid, RepOriginId and uint64 system identifiers become `Nat` (InvalidTransactionId,
InvalidXLogRecPtr, InvalidOid and InvalidRepOriginId are all 0); TimestampTz
becomes `Int` (microseconds); `Datum` becomes a tagged sum. Postgres ereport
at ERROR level is modelled as `Except.error`; ambient backend state
(syscaches, replication-origin registry, WAL position, clock, GUC-independent
statics) is an explicit `Env` record passed to each function.
-/

namespace BDR

/-- BDRNodeId from bdr_internal.h: (sysid, timeline, dboid) uniquely identify
a node. sysid is uint64, timeline and dboid are Oid (uint32). -/
structure BDRNodeId where
  sysid : Nat
  timeline : Nat
  dboid : Nat
deriving DecidableEq

/-- BdrConflictType enum from bdr.h. -/
inductive BdrConflictType where
  | InsertInsert
  | InsertUpdate
  | UpdateUpdate
  | UpdateDelete
  | DeleteDelete
  | UnhandledTxAbort
deriving DecidableEq

/-- BdrConflictResolution enum from bdr.h. -/
inductive BdrConflictResolution where
  | ConflictTriggerSkipChange
  | ConflictTriggerReturnedTuple
  | LastUpdateWins_KeepLocal
  | LastUpdateWins_KeepRemote
  | DefaultApplyChange
  | DefaultSkipChange
  | UnhandledTxAbort
deriving DecidableEq

/-- Transaction state of the surrounding backend, as observed through
IsAbortedTransactionBlockState / IsTransactionState. -/
inductive TxState where
  | noTx
  | live
  | aborted
deriving DecidableEq

/-- One attribute value inside a heap tuple. `isExternalOnDisk` models
VARATT_IS_EXTERNAL_ONDISK for varlena values; `payload` is the opaque
on-disk representation handed to the type output function. -/
structure TupleVal where
  isExternalOnDisk : Bool
  payload : String
deriving DecidableEq

/-- A composite Datum (HeapTupleHeader with rowtype info): type id, typmod
and the column values (none = SQL NULL, also what heap_getattr returns for
attributes past the tuple's natts). -/
structure Composite where
  tupType : Nat
  tupTypmod : Int
  cols : List (Option TupleVal)
deriving DecidableEq

/-- One pg_attribute entry of a tuple descriptor, the fields
tuple_to_stringinfo reads. -/
structure Attr where
  attname : String
  atttypid : Nat
  attisdropped : Bool
  attnum : Int
deriving DecidableEq

/-- The pg_type fields consulted via the TYPEOID syscache and
getTypeOutputInfo: type name, output-function oid (none models a type
whose typoutput is undefined) and typisvarlena. -/
structure TypInfo where
  typname : String
  typoutput : Option Nat
  typisvarlena : Bool
deriving DecidableEq

/-- ErrorData fields read by bdr_conflict_log_table's apply-error branch. -/
structure ErrorData where
  message : Option String
  sqlerrcode : Nat
  cursorpos : Int
  detail : Option String
  hint : Option String
  context : Option String
  column_name : Option String
  datatype_name : Option String
  constraint_name : Option String
  filename : Option String
  lineno : Int
  funcname : Option String
  schema_name : Option String
  table_name : Option String
deriving DecidableEq

/-- The relation fields bdr_make_apply_conflict reads from a BDRRelation:
RelationGetRelationName and get_namespace_name(RelationGetNamespace(rel))
(the latter may return NULL, hence Option). -/
structure RelInfo where
  relname : String
  nspname : Option String
deriving DecidableEq

/-- What bdr_make_apply_conflict reads from a local TupleTableSlot: the
tuple's xmin (HeapTupleHeaderGetXmin) and its composite Datum form
(ExecFetchSlotHeapTupleDatum). -/
structure LocalSlot where
  xmin : Nat
  comp : Composite
deriving DecidableEq

/-- A PostgreSQL Datum as stored in one column of the conflict-history row. -/
inductive Datum where
  | zero
  | text (s : String)
  | xid (x : Nat)
  | lsn (l : Nat)
  | tstz (t : Int)
  | oidval (o : Nat)
  | int8 (n : Nat)
  | int4 (n : Int)
  | jsonval (s : String)
deriving DecidableEq

/-- Ambient backend state and external collaborators, made explicit.
Syscache lookups and catalog-resident state are functions here; `none`
models a failed lookup (InvalidOid / missing tuple). -/
structure Env where
  /-- bdr_make_my_nodeid: the local node's identity. -/
  myNodeId : BDRNodeId
  /-- GetTopTransactionIdIfAny result while inside a transaction. -/
  topTxid : Nat
  /-- GetXLogInsertRecPtr. -/
  xlogInsertRecPtr : Nat
  /-- GetCurrentTimestamp. -/
  currentTimestamp : Int
  /-- replorigin_session_origin. -/
  sessionOrigin : Nat
  /-- replorigin_session_origin_timestamp. -/
  sessionOriginTimestamp : Int
  /-- replorigin_session_origin_lsn. -/
  sessionOriginLsn : Nat
  /-- bdr_fetch_sysid_via_node_id's origin registry; none = no mapping. -/
  fetchSysid : Nat → Option BDRNodeId
  /-- TYPEOID syscache content, also backing getTypeOutputInfo. -/
  typInfo : Nat → Option TypInfo
  /-- OidOutputFunctionCall: output function oid and payload to text;
  none models an error raised inside the output function. -/
  outFn : Nat → String → Option String
  /-- lookup_rowtype_tupdesc: (tupType, tupTypmod) to tuple descriptor. -/
  rowtypeDesc : Nat → Int → Option (List Attr)
  /-- bdr_get_my_cached_remote_name (returns "(none)" when unknown). -/
  nodeName : BDRNodeId → String
  /-- GetSysCacheOid2(ENUMTYPOIDNAME, enum type oid, label). -/
  enumOid : Nat → String → Option Nat
  /-- static BdrConflictTypeOid resolved at worker startup. -/
  conflictTypeOid : Nat
  /-- static BdrConflictResolutionOid resolved at worker startup. -/
  conflictResolutionOid : Nat
  /-- nextval of bdr.bdr_conflict_history_id_seq for this call. -/
  historySeqNextval : Nat
  /-- DirectFunctionCall1(row_to_json, row); none models an error raised
  during json conversion (e.g. in a user defined cast). -/
  rowToJson : Composite → Option String
  /-- unpack_sql_state. -/
  unpackSqlState : Nat → String
  /-- whether ExecInsertIndexTuples reports recheck indexes for the
  conflict-history insert (UserTableUpdateOpenIndexes errors then). -/
  indexRecheck : Bool

/-- GetTopTransactionIdIfAny: the assigned top-level xid inside a live
transaction, InvalidTransactionId (0) otherwise. -/
def GetTopTransactionIdIfAny (env : Env) (txs : TxState) : Nat :=
  if txs = TxState.live then env.topTxid else 0

/-- bdr_fetch_sysid_via_node_id: resolve a RepOriginId to a BDRNodeId via
the origin registry, erroring out when no mapping exists. -/
def bdr_fetch_sysid_via_node_id (env : Env) (node_id : Nat) :
    Except String BDRNodeId :=
  match env.fetchSysid node_id with
  | some n => Except.ok n
  | none => Except.error ("could not find tuple for node " ++ toString node_id)

/-- struct BdrApplyConflict from bdr.h: the immutable conflict record.
`local_tuple`/`remote_tuple` are composite Datums where `none` models the
zero Datum ((Datum) 0), distinct from the `*_null` flags which mirror the
struct's separate boolean fields. -/
structure BdrApplyConflict where
  local_conflict_txid : Nat
  local_conflict_lsn : Nat
  local_conflict_time : Int
  object_schema : Option String
  object_name : Option String
  remote_node : BDRNodeId
  remote_txid : Nat
  remote_commit_time : Int
  remote_commit_lsn : Nat
  conflict_type : BdrConflictType
  conflict_resolution : BdrConflictResolution
  local_tuple_null : Bool
  local_tuple : Option Composite
  local_tuple_xmin : Nat
  local_tuple_origin_node : BDRNodeId
  local_commit_time : Int
  remote_tuple_null : Bool
  remote_tuple : Option Composite
  apply_error : Option ErrorData
deriving DecidableEq

/-- The all-zeroes BdrApplyConflict produced by palloc0 in
bdr_make_apply_conflict before any field is assigned: numeric fields 0,
pointers NULL (none), booleans false, enums their first value. -/
def zeroConflict : BdrApplyConflict :=
  { local_conflict_txid := 0
    local_conflict_lsn := 0
    local_conflict_time := 0
    object_schema := none
    object_name := none
    remote_node := ⟨0, 0, 0⟩
    remote_txid := 0
    remote_commit_time := 0
    remote_commit_lsn := 0
    conflict_type := BdrConflictType.InsertInsert
    conflict_resolution := BdrConflictResolution.ConflictTriggerSkipChange
    local_tuple_null := false
    local_tuple := none
    local_tuple_xmin := 0
    local_tuple_origin_node := ⟨0, 0, 0⟩
    local_commit_time := 0
    remote_tuple_null := false
    remote_tuple := none
    apply_error := none }

/-- The straight-line field assignments of bdr_make_apply_conflict,
starting from the palloc0'ed record, once the two origin lookups
(`remote_node` from replorigin_session_origin, `local_tuple_origin_node`
from local_tuple_origin_id or bdr_make_my_nodeid) have produced values.
Fields the source never assigns keep their palloc0 zero value — in
particular, with tuple logging off and a non-NULL local tuple neither
local_tuple_null nor local_tuple is touched. -/
def bdr_make_apply_conflict_fields (env : Env) (txs : TxState)
    (bdr_conflict_logging_include_tuples : Bool)
    (conflict_type : BdrConflictType)
    (resolution : BdrConflictResolution)
    (remote_txid : Nat)
    (conflict_relation : Option RelInfo)
    (local_tuple : Option LocalSlot)
    (remote_tuple : Option Composite)
    (local_commit_ts : Int)
    (apply_error : Option ErrorData)
    (remote_node local_tuple_origin_node : BDRNodeId) : BdrApplyConflict :=
  { zeroConflict with
    conflict_type := conflict_type
    conflict_resolution := resolution
    local_conflict_txid := GetTopTransactionIdIfAny env txs
    local_conflict_lsn := env.xlogInsertRecPtr
    local_conflict_time := env.currentTimestamp
    remote_txid := remote_txid
    object_schema :=
      match conflict_relation with
      | none => none
      | some r => r.nspname
    object_name :=
      match conflict_relation with
      | none => none
      | some r => some r.relname
    remote_node := remote_node
    remote_commit_time := env.sessionOriginTimestamp
    remote_commit_lsn := env.sessionOriginLsn
    local_tuple_xmin :=
      match local_tuple with
      | some s => s.xmin
      | none => 0
    local_tuple_null :=
      match local_tuple with
      | some _ => false
      | none => true
    local_tuple :=
      match local_tuple with
      | some s =>
        if bdr_conflict_logging_include_tuples then some s.comp else none
      | none => none
    local_tuple_origin_node := local_tuple_origin_node
    local_commit_time := local_commit_ts
    remote_tuple_null :=
      match remote_tuple with
      | some _ => !bdr_conflict_logging_include_tuples
      | none => true
    remote_tuple :=
      match remote_tuple with
      | some c =>
        if bdr_conflict_logging_include_tuples then some c else none
      | none => none
    apply_error := apply_error }

/-- bdr_make_apply_conflict (bdr_conflict_logging.c:634-729): allocate a
zeroed BdrApplyConflict and fill it with the given conflict details plus
current system state. `bdr_conflict_logging_include_tuples` is the GUC of
the same name; `txs` is the ambient transaction state (only observed
through GetTopTransactionIdIfAny — the function performs no
transaction-state check of its own). -/
def bdr_make_apply_conflict (env : Env) (txs : TxState)
    (bdr_conflict_logging_include_tuples : Bool)
    (conflict_type : BdrConflictType)
    (resolution : BdrConflictResolution)
    (remote_txid : Nat)
    (conflict_relation : Option RelInfo)
    (local_tuple : Option LocalSlot)
    (local_tuple_origin_id : Nat)
    (remote_tuple : Option Composite)
    (local_commit_ts : Int)
    (apply_error : Option ErrorData) : Except String BdrApplyConflict := do
  let remote_node ← bdr_fetch_sysid_via_node_id env env.sessionOrigin
  let local_tuple_origin_node ←
    if local_tuple_origin_id ≠ 0 then
      bdr_fetch_sysid_via_node_id env local_tuple_origin_id
    else
      /- InvalidRepOriginId is used for locally originated tuples -/
      Except.ok env.myNodeId
  Except.ok (bdr_make_apply_conflict_fields env txs
    bdr_conflict_logging_include_tuples conflict_type resolution remote_txid
    conflict_relation local_tuple remote_tuple local_commit_ts apply_error
    remote_node local_tuple_origin_node)

/-- The enum label of each BdrConflictType, as in
bdr_conflict_type_get_datum's switch. -/
def bdr_conflict_type_get_name : BdrConflictType → String
  | BdrConflictType.InsertInsert => "insert_insert"
  | BdrConflictType.InsertUpdate => "insert_update"
  | BdrConflictType.UpdateUpdate => "update_update"
  | BdrConflictType.UpdateDelete => "update_delete"
  | BdrConflictType.DeleteDelete => "delete_delete"
  | BdrConflictType.UnhandledTxAbort => "unhandled_tx_abort"

/-- bdr_conflict_resolution_get_name's switch. -/
def bdr_conflict_resolution_get_name : BdrConflictResolution → String
  | BdrConflictResolution.ConflictTriggerSkipChange =>
      "conflict_trigger_skip_change"
  | BdrConflictResolution.ConflictTriggerReturnedTuple =>
      "conflict_trigger_returned_tuple"
  | BdrConflictResolution.LastUpdateWins_KeepLocal =>
      "last_update_wins_keep_local"
  | BdrConflictResolution.LastUpdateWins_KeepRemote =>
      "last_update_wins_keep_remote"
  | BdrConflictResolution.DefaultApplyChange => "apply_change"
  | BdrConflictResolution.DefaultSkipChange => "skip_change"
  | BdrConflictResolution.UnhandledTxAbort => "unhandled_tx_abort"

/-- bdr_conflict_type_get_datum: enum oid for a BdrConflictType via the
ENUMTYPOIDNAME syscache, ereport(ERROR) when the lookup fails. -/
def bdr_conflict_type_get_datum (env : Env) (conflict_type : BdrConflictType) :
    Except String Datum :=
  match env.enumOid env.conflictTypeOid
      (bdr_conflict_type_get_name conflict_type) with
  | some o => Except.ok (Datum.oidval o)
  | none => Except.error ("syscache lookup for enum " ++
      bdr_conflict_type_get_name conflict_type ++
      " of type bdr.bdr_conflict_type failed")

/-- bdr_conflict_resolution_get_datum, analogous. -/
def bdr_conflict_resolution_get_datum (env : Env)
    (conflict_resolution : BdrConflictResolution) : Except String Datum :=
  match env.enumOid env.conflictResolutionOid
      (bdr_conflict_resolution_get_name conflict_resolution) with
  | some o => Except.ok (Datum.oidval o)
  | none => Except.error ("syscache lookup for enum " ++
      bdr_conflict_resolution_get_name conflict_resolution ++
      " of type bdr.bdr_conflict_resolution failed")

/-- bdr_conflict_row_to_json: convert the target row to json if it is not
null. Errors during row_to_json are deliberately not caught (see the
source comment) and propagate, aborting the apply transaction. Returns
the (isnull, value) pair for the history column. -/
def bdr_conflict_row_to_json (env : Env) (row : Option Composite)
    (row_isnull : Bool) : Except String (Bool × Datum) :=
  if row_isnull then Except.ok (true, Datum.zero)
  else
    match row with
    | none => Except.error "attempt to convert zero Datum to json"
    | some c =>
      match env.rowToJson c with
      | some j => Except.ok (false, Datum.jsonval j)
      | none => Except.error "error raised inside row_to_json"

/-- bdr_conflict_strtodatum: NULL column for a NULL C string, text Datum
otherwise. -/
def bdr_conflict_strtodatum : Option String → Bool × Datum
  | none => (true, Datum.zero)
  | some s => (false, Datum.text s)

/-- One conflict-history row: 35 (isnull, value) cells in column order. -/
abbrev HistoryRow := List (Bool × Datum)

/-- The sqlstate text bdr_conflict_log_table stores: unpack_sql_state
result copied through a 12-byte buffer whose last byte is forced to NUL
(so at most 11 characters survive). -/
def historySqlstate (env : Env) (edata : ErrorData) : String :=
  (env.unpackSqlState edata.sqlerrcode).take 11

/-- The 13 error_* columns of a history row when there is no apply error:
all NULL (memset of the nulls array). -/
def historyErrColsNull : HistoryRow := List.replicate 13 (true, Datum.zero)

/-- The error_* columns written by bdr_conflict_log_table's apply-error
branch. Faithful to the source, which advances attno only 12 times here
(after storing the sqlstate text the code sets the *same* cell's null
flag — intended for the never-stored statement column — before
incrementing attno), so this branch fills one column fewer than the
no-error branch and the sqlstate cell is marked NULL despite its value. -/
def historyErrCols (env : Env) (edata : ErrorData) : HistoryRow :=
  [ bdr_conflict_strtodatum edata.message,
    (true, Datum.text (historySqlstate env edata)),
    (if edata.cursorpos ≠ 0 then (false, Datum.int4 edata.cursorpos)
     else (true, Datum.zero)),
    bdr_conflict_strtodatum edata.detail,
    bdr_conflict_strtodatum edata.hint,
    bdr_conflict_strtodatum edata.context,
    bdr_conflict_strtodatum edata.column_name,
    bdr_conflict_strtodatum edata.datatype_name,
    bdr_conflict_strtodatum edata.constraint_name,
    bdr_conflict_strtodatum edata.filename,
    (false, Datum.int4 edata.lineno),
    bdr_conflict_strtodatum edata.funcname ]

/-- bdr_conflict_log_table (bdr_conflict_logging.c:356-572): insert one
row into bdr.bdr_conflict_history. The state `st` is the history table's
row list; ereport(ERROR) aborts with no state change (the enclosing
transaction rolls the insert back). `txs` and the
bdr_log_conflicts_to_table GUC are checked in source order: aborted
transaction, then missing transaction, then the GUC. The values/nulls
arrays are 35 cells, memset to (false, zero); cells never written keep
that value. In the apply-error branch columns 5 and 6 (object schema and
name) are overwritten from the ErrorData. -/
def bdr_conflict_log_table (env : Env) (txs : TxState)
    (bdr_log_conflicts_to_table : Bool) (st : List HistoryRow)
    (conflict : BdrApplyConflict) : Except String (List HistoryRow) := do
  let myid := env.myNodeId
  if txs = TxState.aborted then
    throw "bdr: attempt to log conflict in aborted transaction"
  else if txs ≠ TxState.live then
    throw "bdr: attempt to log conflict without surrounding transaction"
  else if !bdr_log_conflicts_to_table then
    /- No logging enabled and we don't own any memory, just bail -/
    return st
  else
  let local_sysid := toString myid.sysid
  let remote_sysid := toString conflict.remote_node.sysid
  let origin_sysid :=
    if conflict.local_tuple_origin_node.sysid ≠ 0 then
      toString conflict.local_tuple_origin_node.sysid
    else ""
  let conflict_type_datum ←
    bdr_conflict_type_get_datum env conflict.conflict_type
  let conflict_resolution_datum ←
    bdr_conflict_resolution_get_datum env conflict.conflict_resolution
  let local_tuple_cell ←
    bdr_conflict_row_to_json env conflict.local_tuple conflict.local_tuple_null
  let remote_tuple_cell ←
    bdr_conflict_row_to_json env conflict.remote_tuple
      conflict.remote_tuple_null
  let head : HistoryRow :=
    [ (false, Datum.int8 env.historySeqNextval),
      (false, Datum.text local_sysid),
      (false, Datum.xid conflict.local_conflict_txid),
      (false, Datum.lsn conflict.local_conflict_lsn),
      (false, Datum.tstz conflict.local_conflict_time),
      bdr_conflict_strtodatum conflict.object_schema,
      bdr_conflict_strtodatum conflict.object_name,
      (false, Datum.text remote_sysid),
      (if conflict.remote_txid ≠ 0 then (false, Datum.xid conflict.remote_txid)
       else (true, Datum.zero)),
      (false, Datum.tstz conflict.remote_commit_time),
      (false, Datum.lsn conflict.remote_commit_lsn),
      (false, conflict_type_datum),
      (false, conflict_resolution_datum),
      local_tuple_cell,
      remote_tuple_cell,
      (if conflict.local_tuple_xmin ≠ 0 then
        (false, Datum.xid conflict.local_tuple_xmin)
       else (true, Datum.zero)),
      (if conflict.local_tuple_origin_node.sysid ≠ 0 then
        (false, Datum.text origin_sysid)
       else (true, Datum.zero)) ]
  let errcols : HistoryRow :=
    match conflict.apply_error with
    | none => historyErrColsNull
    | some edata => historyErrCols env edata
  let tail : HistoryRow :=
    [ (if conflict.remote_node.sysid ≠ 0 then
        (false, Datum.oidval conflict.remote_node.timeline)
       else (true, Datum.zero)),
      (if conflict.remote_node.sysid ≠ 0 then
        (false, Datum.oidval conflict.remote_node.dboid)
       else (true, Datum.zero)),
      (if conflict.local_tuple_origin_node.sysid ≠ 0 then
        (false, Datum.oidval conflict.local_tuple_origin_node.timeline)
       else (true, Datum.zero)),
      (if conflict.local_tuple_origin_node.sysid ≠ 0 then
        (false, Datum.oidval conflict.local_tuple_origin_node.dboid)
       else (true, Datum.zero)),
      (if conflict.local_commit_time = 0 then (true, Datum.zero)
       else (false, Datum.tstz conflict.local_commit_time)) ]
  let assigned := head ++ errcols ++ tail
  /- cells past the last attno keep their memset value -/
  let padded := assigned ++
    List.replicate (35 - assigned.length) (false, Datum.zero)
  let row :=
    match conflict.apply_error with
    | none => padded
    | some edata =>
      /- Set schema and table name based on the error, not arg values -/
      (padded.set 5 (bdr_conflict_strtodatum edata.schema_name)).set 6
        (bdr_conflict_strtodatum edata.table_name)
  /- simple_heap_insert then UserTableUpdateIndexes; index rechecks make
  UserTableUpdateOpenIndexes ereport(ERROR), rolling the insert back. -/
  if env.indexRecheck then
    throw "bdr doesn't support index rechecks"
  else
    return st ++ [row]

/-- getTypeOutputInfo (lsyscache): output-function oid and typisvarlena
for a type, ereport(ERROR) when the type row is missing or it has no
output function. -/
def getTypeOutputInfo (env : Env) (typid : Nat) : Except String (Nat × Bool) :=
  match env.typInfo typid with
  | none => Except.error ("cache lookup failed for type " ++ toString typid)
  | some ti =>
    match ti.typoutput with
    | none => Except.error ("no output function available for type " ++
        toString typid)
    | some f => Except.ok (f, ti.typisvarlena)

/-- tuple_to_stringinfo (bdr_conflict_logging.c:227-304): append " name
[type]:value" for every non-dropped, non-system column to `s`. `cols` is
the heap tuple's attribute values, `natt` the current attribute index.
Type-cache lookup failures and output-function failures ereport(ERROR)
and propagate. -/
def tuple_to_stringinfo (env : Env) (cols : List (Option TupleVal)) :
    String → Nat → List Attr → Except String String
  | s, _, [] => Except.ok s
  | s, natt, attr :: rest =>
    /- don't print dropped columns or system columns -/
    if attr.attisdropped then tuple_to_stringinfo env cols s (natt + 1) rest
    else if attr.attnum < 0 then tuple_to_stringinfo env cols s (natt + 1) rest
    else
      match env.typInfo attr.atttypid with
      | none =>
        Except.error ("cache lookup failed for type " ++
          toString attr.atttypid)
      | some type_form => do
        let s := s ++ " " ++ attr.attname ++ "[" ++ type_form.typname ++ "]"
        let out ← getTypeOutputInfo env attr.atttypid
        /- heap_getattr(tuple, natt + 1, ...) -/
        let origval := cols.getD natt none
        let outputstr ←
          match origval with
          | none => Except.ok "(null)"
          | some v =>
            if out.2 && v.isExternalOnDisk then
              Except.ok "(unchanged-toast-datum)"
            else
              /- detoasting keeps the payload; then the output function -/
              match env.outFn out.1 v.payload with
              | some o => Except.ok o
              | none =>
                Except.error ("error raised in output function for type " ++
                  toString attr.atttypid)
        tuple_to_stringinfo env cols (s ++ ":" ++ outputstr) (natt + 1) rest

/-- row_to_stringinfo (bdr_conflict_logging.c:306-333): look up the
composite's rowtype descriptor (ereport on cache-lookup failure) and
print the tuple. -/
def row_to_stringinfo (env : Env) (s : String) (composite : Composite) :
    Except String String :=
  match env.rowtypeDesc composite.tupType composite.tupTypmod with
  | none => Except.error ("cache lookup failed for rowtype " ++
      toString composite.tupType)
  | some tupdesc => tuple_to_stringinfo env composite.cols s 0 tupdesc

/-- BDR_NODEID_FORMAT_WITHNAME rendering: "%s (sysid,timeline,dboid,%s)"
with the cached node name and the empty replication name. -/
def fmtNodeIdWithName (env : Env) (n : BDRNodeId) : String :=
  env.nodeName n ++ " (" ++ toString n.sysid ++ "," ++ toString n.timeline ++
    "," ++ toString n.dboid ++ ",)"

/-- The PKEY-tuple rendering step at the top of bdr_conflict_log_serverlog:
an initStringInfo'd buffer, filled by row_to_stringinfo unless the local
tuple is null. A zero local_tuple Datum with the null flag unset would be
dereferenced by DatumGetHeapTupleHeader; that is modelled as an error. -/
def serverlogKey (env : Env) (conflict : BdrApplyConflict) :
    Except String String :=
  if conflict.local_tuple_null then Except.ok ""
  else
    match conflict.local_tuple with
    | some c => row_to_stringinfo env "" c
    | none => Except.error "attempt to render zero Datum"

/-- bdr_conflict_log_serverlog (bdr_conflict_logging.c:577-621): render
the PKEY tuple (errors during rendering propagate — there is no
PG_TRY/PG_CATCH around it) then emit LOG-level lines per conflict type.
Returns the list of emitted log lines; UnhandledTxAbort emits none. -/
def bdr_conflict_log_serverlog (env : Env) (conflict : BdrApplyConflict) :
    Except String (List String) := do
  /- Create text representation of the PKEY tuple -/
  let s_key ← serverlogKey env conflict
  let resolution_name :=
    bdr_conflict_resolution_get_name conflict.conflict_resolution
  match conflict.conflict_type with
  | BdrConflictType.InsertInsert
  | BdrConflictType.UpdateUpdate
  | BdrConflictType.InsertUpdate =>
    Except.ok ["CONFLICT: remote " ++
      (if conflict.conflict_type = BdrConflictType.UpdateUpdate then "UPDATE"
       else "INSERT") ++
      ": row was previously " ++
      (if conflict.conflict_type = BdrConflictType.InsertInsert then "INSERTed"
       else "UPDATEd") ++
      " at node " ++ fmtNodeIdWithName env conflict.local_tuple_origin_node ++
      ". Resolution: " ++ resolution_name ++ "; PKEY:" ++ s_key]
  | BdrConflictType.UpdateDelete
  | BdrConflictType.DeleteDelete =>
    Except.ok ["CONFLICT: remote " ++
      (if conflict.conflict_type = BdrConflictType.UpdateDelete then "UPDATE"
       else "DELETE") ++
      ": could not find existing row. Resolution: " ++ resolution_name ++
      "; PKEY:" ++ s_key]
  | BdrConflictType.UnhandledTxAbort =>
    Except.ok []

/-!
find_pkey_tuple (bdr_executor.c:235-309). Each `retry` of the source does
index_endscan then a fresh index_beginscan/index_rescan, so successive
attempts are independent full scans; the environment records, for each
fresh scan attempt k, the outcome of its first index_getnext_slot and
(when a found tuple is locked) the heap_lock_tuple result.
-/

/-- Outcome of one fresh index scan attempt: no visible match, or a match
(identified by `tup`) together with the in-progress writer's xid from the
dirty snapshot (snap.xmin if valid, else snap.xmax), if any. -/
inductive ScanOutcome where
  | notFound
  | found (tup : Nat) (xwait : Option Nat)
deriving DecidableEq

/-- TM_Result of heap_lock_tuple as distinguished by find_pkey_tuple. -/
inductive TMResult where
  | tmOk
  | tmUpdated
  | tmOther (code : Nat)
deriving DecidableEq

/-- The storage engine's behaviour across scan attempts. -/
structure ScanEnv where
  scans : Nat → ScanOutcome
  locks : Nat → TMResult

/-- Result of find_pkey_tuple: whether a tuple was found, which one the
slot holds, the index of the fresh scan attempt that produced it, and the
xids of concurrent writers waited on (XactLockTableWait) along the way. -/
structure FindResult where
  found : Bool
  tuple : Option Nat
  attempt : Nat
  waits : List Nat
deriving DecidableEq

/-- The retry loop of find_pkey_tuple. `k` numbers the fresh scan
attempts, `ws` accumulates waited-on xids; `fuel` bounds the unbounded
goto-retry loop (`none` = still retrying after `fuel` attempts). On a
found tuple with a valid xwait the source waits then restarts; with
`lock` set, TM_Ok accepts, TM_Updated restarts, anything else
elog(ERROR)s. -/
def find_pkey_tuple_loop (env : ScanEnv) (lock : Bool) :
    Nat → Nat → List Nat → Option (Except String FindResult)
  | 0, _, _ => none
  | fuel + 1, k, ws =>
    match env.scans k with
    | ScanOutcome.notFound =>
      some (Except.ok { found := false, tuple := none, attempt := k,
                        waits := ws })
    | ScanOutcome.found t xw =>
      match xw with
      | some x =>
        /- XactLockTableWait(xwait); index_endscan; goto retry -/
        find_pkey_tuple_loop env lock fuel (k + 1) (ws ++ [x])
      | none =>
        if lock then
          match env.locks k with
          | TMResult.tmOk =>
            some (Except.ok { found := true, tuple := some t, attempt := k,
                              waits := ws })
          | TMResult.tmUpdated =>
            /- concurrent update, retrying: index_endscan; goto retry -/
            find_pkey_tuple_loop env lock fuel (k + 1) ws
          | TMResult.tmOther c =>
            some (Except.error ("unexpected TM_Result after locking: " ++
              toString c))
        else
          some (Except.ok { found := true, tuple := some t, attempt := k,
                            waits := ws })

/-- find_pkey_tuple, started at the first fresh scan. -/
def find_pkey_tuple (env : ScanEnv) (lock : Bool) (fuel : Nat) :
    Option (Except String FindResult) :=
  find_pkey_tuple_loop env lock fuel 0 []

/-- Modelled from the spec: the last-update-wins tie-break order on
BDRNodeId. The resolver itself (bdr_apply.c) is not part of the sources
under examination; per the spec the two origins' NodeIds are compared by
the fixed total order (system_id, then timeline_id, then database_id,
ascending). -/
def bdr_nodeid_tiebreak_lt (a b : BDRNodeId) : Bool :=
  if a.sysid = b.sysid then
    if a.timeline = b.timeline then decide (a.dboid < b.dboid)
    else decide (a.timeline < b.timeline)
  else decide (a.sysid < b.sysid)

/-- Modelled from the spec: the last-update-wins decision for conflicting
writes, given each side's origin NodeId and commit timestamp. The later
commit wins; on equal timestamps the change from the numerically larger
NodeId (in the order of bdr_nodeid_tiebreak_lt) wins. The resolver's
source (bdr_apply.c) is not under examination. -/
def bdr_last_update_wins (local_node remote_node : BDRNodeId)
    (local_ts remote_ts : Int) : BdrConflictResolution :=
  if local_ts < remote_ts then
    BdrConflictResolution.LastUpdateWins_KeepRemote
  else if remote_ts < local_ts then
    BdrConflictResolution.LastUpdateWins_KeepLocal
  else if bdr_nodeid_tiebreak_lt local_node remote_node then
    BdrConflictResolution.LastUpdateWins_KeepRemote
  else
    BdrConflictResolution.LastUpdateWins_KeepLocal

/-!
Concrete fixtures used to evaluate the embedding on closed inputs.
-/

/-- A small concrete environment: node 3 in the origin registry is peer
(22,1,16384), node 4 is (33,1,16384); type 23 is int4 with output
function 42; rowtype 9001 is a one-int-column row; rowtype 7777 is
unknown to the rowtype cache. -/
def env0 : Env where
  myNodeId := ⟨11, 1, 16384⟩
  topTxid := 701
  xlogInsertRecPtr := 90001
  currentTimestamp := 1700000000
  sessionOrigin := 3
  sessionOriginTimestamp := 1600000000
  sessionOriginLsn := 80001
  fetchSysid := fun n =>
    if n = 3 then some ⟨22, 1, 16384⟩
    else if n = 4 then some ⟨33, 1, 16384⟩
    else none
  typInfo := fun t => if t = 23 then some ⟨"int4", some 42, false⟩ else none
  outFn := fun f p => if f = 42 then some p else none
  rowtypeDesc := fun ty _ =>
    if ty = 9001 then some [⟨"id", 23, false, 1⟩] else none
  nodeName := fun _ => "nodeA"
  enumOid := fun ty s =>
    if ty = 600 then
      if s = "insert_insert" then some 611 else none
    else if ty = 601 then
      if s = "last_update_wins_keep_remote" then some 622 else none
    else none
  conflictTypeOid := 600
  conflictResolutionOid := 601
  historySeqNextval := 1
  rowToJson := fun _ => some "jsonrow"
  unpackSqlState := fun _ => "XX000"
  indexRecheck := false

/-- A one-column composite of rowtype 9001. -/
def comp0 : Composite := ⟨9001, -1, [some ⟨false, "42"⟩]⟩

/-- A local slot holding comp0 with xmin 555. -/
def slot0 : LocalSlot := ⟨555, comp0⟩

/-- A relation public.mytable. -/
def rel0 : RelInfo := ⟨"mytable", some "public"⟩

/-!
Theorems.
-/

/-- Inversion for bdr_make_apply_conflict: a successful build determines
the record as the straight-line field assignment applied to the two
resolved origin identities; the local-tuple origin is looked up in the
registry for a valid RepOriginId and is the local node's own id for
InvalidRepOriginId (0). -/
theorem bdr_make_apply_conflict_ok_elim (env : Env) (txs : TxState)
    (inc : Bool) (ct : BdrConflictType) (res : BdrConflictResolution)
    (rtx : Nat) (rel : Option RelInfo) (ltup : Option LocalSlot) (loid : Nat)
    (rtup : Option Composite) (lct : Int) (ae : Option ErrorData)
    (rec : BdrApplyConflict)
    (h : bdr_make_apply_conflict env txs inc ct res rtx rel ltup loid rtup
      lct ae = Except.ok rec) :
    ∃ rn lton, env.fetchSysid env.sessionOrigin = some rn ∧
      ((loid ≠ 0 ∧ env.fetchSysid loid = some lton) ∨
        (loid = 0 ∧ lton = env.myNodeId)) ∧
      rec = bdr_make_apply_conflict_fields env txs inc ct res rtx rel ltup
        rtup lct ae rn lton := by
  simp only [bdr_make_apply_conflict, bdr_fetch_sysid_via_node_id] at h
  cases hfs : env.fetchSysid env.sessionOrigin with
  | none => simp [hfs, Bind.bind, Except.bind] at h
  | some rn =>
    simp only [hfs, Bind.bind, Except.bind] at h
    by_cases hl : loid = 0
    · simp only [hl, ne_eq, not_true_eq_false, if_false, ite_false] at h
      refine ⟨rn, env.myNodeId, rfl, Or.inr ⟨hl, rfl⟩, ?_⟩
      cases h
      rfl
    · simp only [ne_eq, hl, not_false_eq_true, if_true, ite_true] at h
      cases hfl : env.fetchSysid loid with
      | none => simp [hfl] at h
      | some n =>
        simp only [hfl] at h
        refine ⟨rn, n, rfl, Or.inl ⟨hl, rfl⟩, ?_⟩
        cases h
        rfl

/-- Claim C9: bdr_conflict_log_table's transaction-state checks (aborted
transaction, then missing transaction) run before the
bdr_log_conflicts_to_table check, so the function fails in those states
for every value of the flag; only with a live transaction and the flag
disabled is it a no-op. -/
theorem bdr_conflict_log_table_tx_checks_first (env : Env) (flag : Bool)
    (st : List HistoryRow) (conflict : BdrApplyConflict) :
    bdr_conflict_log_table env TxState.aborted flag st conflict =
      Except.error "bdr: attempt to log conflict in aborted transaction" ∧
    bdr_conflict_log_table env TxState.noTx flag st conflict =
      Except.error
        "bdr: attempt to log conflict without surrounding transaction" ∧
    bdr_conflict_log_table env TxState.live false st conflict =
      Except.ok st :=
  ⟨rfl, rfl, rfl⟩

/-- Claim C9 witness: the three behaviours at a concrete environment,
flag enabled in the failing states. -/
theorem bdr_conflict_log_table_tx_checks_first_witness :
    bdr_conflict_log_table env0 TxState.aborted true [] zeroConflict =
      Except.error "bdr: attempt to log conflict in aborted transaction" ∧
    bdr_conflict_log_table env0 TxState.noTx true [] zeroConflict =
      Except.error
        "bdr: attempt to log conflict without surrounding transaction" ∧
    bdr_conflict_log_table env0 TxState.live false [] zeroConflict =
      Except.ok [] :=
  bdr_conflict_log_table_tx_checks_first env0 true [] zeroConflict

/-- Claim C10: a builder call with local_tuple_origin_id =
InvalidRepOriginId (0, a locally originated tuple) attributes the local
tuple to the local node: local_tuple_origin_node is the local node's own
identity. -/
theorem bdr_make_apply_conflict_invalid_origin_is_local (env : Env)
    (txs : TxState) (inc : Bool) (ct : BdrConflictType)
    (res : BdrConflictResolution) (rtx : Nat) (rel : Option RelInfo)
    (ltup : Option LocalSlot) (rtup : Option Composite) (lct : Int)
    (ae : Option ErrorData) (rec : BdrApplyConflict)
    (h : bdr_make_apply_conflict env txs inc ct res rtx rel ltup 0 rtup lct
      ae = Except.ok rec) :
    rec.local_tuple_origin_node = env.myNodeId := by
  obtain ⟨rn, lton, -, hor, rfl⟩ :=
    bdr_make_apply_conflict_ok_elim env txs inc ct res rtx rel ltup 0 rtup
      lct ae rec h
  rcases hor with ⟨hne, -⟩ | ⟨-, rfl⟩
  · exact absurd rfl hne
  · simp [bdr_make_apply_conflict_fields]

/-- The record built in the Claim C10 witness run. -/
def c10rec : BdrApplyConflict :=
  ((bdr_make_apply_conflict env0 TxState.live true BdrConflictType.InsertInsert
    BdrConflictResolution.LastUpdateWins_KeepRemote 900 (some rel0)
    (some slot0) 0 none 0 none).toOption).getD zeroConflict

/-- Claim C10 witness: a concrete build with origin id 0 yields a record
attributed to the local node. -/
theorem bdr_make_apply_conflict_invalid_origin_is_local_witness :
    bdr_make_apply_conflict env0 TxState.live true BdrConflictType.InsertInsert
      BdrConflictResolution.LastUpdateWins_KeepRemote 900 (some rel0)
      (some slot0) 0 none 0 none = Except.ok c10rec ∧
    c10rec.local_tuple_origin_node = env0.myNodeId :=
  ⟨rfl, bdr_make_apply_conflict_invalid_origin_is_local env0 TxState.live true
    BdrConflictType.InsertInsert
    BdrConflictResolution.LastUpdateWins_KeepRemote 900 (some rel0)
    (some slot0) none 0 none c10rec rfl⟩

/-- Claim C6: every record the builder returns carries the current
top-level transaction id, the current WAL insert position and the current
wall-clock time in its local_conflict_* fields; these are unchanged under
any modification of the local commit timestamp argument and of the remote
commit timestamp (replorigin_session_origin_timestamp). -/
theorem bdr_make_apply_conflict_stamps_detection_state (env : Env)
    (txs : TxState) (inc : Bool) (ct : BdrConflictType)
    (res : BdrConflictResolution) (rtx : Nat) (rel : Option RelInfo)
    (ltup : Option LocalSlot) (loid : Nat) (rtup : Option Composite)
    (lct : Int) (ae : Option ErrorData) (rec : BdrApplyConflict)
    (h : bdr_make_apply_conflict env txs inc ct res rtx rel ltup loid rtup
      lct ae = Except.ok rec) :
    rec.local_conflict_txid = GetTopTransactionIdIfAny env txs ∧
    rec.local_conflict_lsn = env.xlogInsertRecPtr ∧
    rec.local_conflict_time = env.currentTimestamp ∧
    (∀ (lct' ts' : Int) (rec' : BdrApplyConflict),
      bdr_make_apply_conflict { env with sessionOriginTimestamp := ts' } txs
        inc ct res rtx rel ltup loid rtup lct' ae = Except.ok rec' →
      rec'.local_conflict_txid = rec.local_conflict_txid ∧
      rec'.local_conflict_lsn = rec.local_conflict_lsn ∧
      rec'.local_conflict_time = rec.local_conflict_time) := by
  obtain ⟨rn, lton, -, -, rfl⟩ :=
    bdr_make_apply_conflict_ok_elim env txs inc ct res rtx rel ltup loid rtup
      lct ae rec h
  refine ⟨by simp [bdr_make_apply_conflict_fields],
    by simp [bdr_make_apply_conflict_fields],
    by simp [bdr_make_apply_conflict_fields], ?_⟩
  intro lct' ts' rec' h'
  obtain ⟨rn', lton', -, -, rfl⟩ :=
    bdr_make_apply_conflict_ok_elim _ txs inc ct res rtx rel ltup loid rtup
      lct' ae rec' h'
  simp [bdr_make_apply_conflict_fields, GetTopTransactionIdIfAny]

/-- The record built in the Claim C6 witness run. -/
def c6rec : BdrApplyConflict :=
  ((bdr_make_apply_conflict env0 TxState.live false
    BdrConflictType.UpdateUpdate BdrConflictResolution.LastUpdateWins_KeepLocal
    902 (some rel0) (some slot0) 4 (some comp0) 1234 none).toOption).getD
    zeroConflict

/-- Claim C6 witness: a concrete build is stamped with env0's current
txid, WAL position and clock. -/
theorem bdr_make_apply_conflict_stamps_detection_state_witness :
    bdr_make_apply_conflict env0 TxState.live false
      BdrConflictType.UpdateUpdate
      BdrConflictResolution.LastUpdateWins_KeepLocal 902 (some rel0)
      (some slot0) 4 (some comp0) 1234 none = Except.ok c6rec ∧
    (c6rec.local_conflict_txid = GetTopTransactionIdIfAny env0 TxState.live ∧
     c6rec.local_conflict_lsn = env0.xlogInsertRecPtr ∧
     c6rec.local_conflict_time = env0.currentTimestamp) :=
  ⟨rfl,
    let h := bdr_make_apply_conflict_stamps_detection_state env0 TxState.live
      false BdrConflictType.UpdateUpdate
      BdrConflictResolution.LastUpdateWins_KeepLocal 902 (some rel0)
      (some slot0) 4 (some comp0) 1234 none c6rec rfl
    ⟨h.1, h.2.1, h.2.2.1⟩⟩

/-- Claim C8: with bdr_conflict_logging_include_tuples disabled and a
non-NULL local tuple supplied, the returned record's remote_tuple_null is
true regardless of the remote tuple argument, while local_tuple_null is
left false (its palloc0 value) and the local_tuple Datum is left zero —
the local side's null flag and stored tuple disagree. -/
theorem bdr_make_apply_conflict_redaction_asymmetric (env : Env)
    (txs : TxState) (ct : BdrConflictType) (res : BdrConflictResolution)
    (rtx : Nat) (rel : Option RelInfo) (slot : LocalSlot) (loid : Nat)
    (rtup : Option Composite) (lct : Int) (ae : Option ErrorData)
    (rec : BdrApplyConflict)
    (h : bdr_make_apply_conflict env txs false ct res rtx rel (some slot)
      loid rtup lct ae = Except.ok rec) :
    rec.remote_tuple_null = true ∧ rec.local_tuple_null = false ∧
      rec.local_tuple = none := by
  obtain ⟨rn, lton, -, -, rfl⟩ :=
    bdr_make_apply_conflict_ok_elim env txs false ct res rtx rel (some slot)
      loid rtup lct ae rec h
  refine ⟨?_, by simp [bdr_make_apply_conflict_fields],
    by simp [bdr_make_apply_conflict_fields]⟩
  cases rtup <;> simp [bdr_make_apply_conflict_fields]

/-- The record built in the Claim C8 witness run (tuple logging off, local
slot and remote tuple both present). -/
def c8rec : BdrApplyConflict :=
  ((bdr_make_apply_conflict env0 TxState.live false
    BdrConflictType.UpdateUpdate BdrConflictResolution.LastUpdateWins_KeepLocal
    903 (some rel0) (some slot0) 4 (some comp0) 1234 none).toOption).getD
    zeroConflict

/-- Claim C8 witness: the concrete redacted record has remote_tuple_null
true but local_tuple_null false with a zero local_tuple Datum. -/
theorem bdr_make_apply_conflict_redaction_asymmetric_witness :
    bdr_make_apply_conflict env0 TxState.live false
      BdrConflictType.UpdateUpdate
      BdrConflictResolution.LastUpdateWins_KeepLocal 903 (some rel0)
      (some slot0) 4 (some comp0) 1234 none = Except.ok c8rec ∧
    (c8rec.remote_tuple_null = true ∧ c8rec.local_tuple_null = false ∧
      c8rec.local_tuple = none) :=
  ⟨rfl, bdr_make_apply_conflict_redaction_asymmetric env0 TxState.live
    BdrConflictType.UpdateUpdate
    BdrConflictResolution.LastUpdateWins_KeepLocal 903 (some rel0) slot0 4
    (some comp0) 1234 none c8rec rfl⟩

/-- The record built in the Claim C3 counterexample run, outside any
transaction. -/
def c3rec : BdrApplyConflict :=
  ((bdr_make_apply_conflict env0 TxState.noTx true BdrConflictType.UpdateUpdate
    BdrConflictResolution.DefaultSkipChange 901 none none 0 none 0
    none).toOption).getD zeroConflict

/-- Claim C3 counterexample: invoked with no surrounding transaction the
builder does not fail with any error — it succeeds and returns a record,
so the claimed PreconditionError does not exist. -/
theorem bdr_make_apply_conflict_no_tx_succeeds_cex :
    bdr_make_apply_conflict env0 TxState.noTx true BdrConflictType.UpdateUpdate
      BdrConflictResolution.DefaultSkipChange 901 none none 0 none 0 none =
      Except.ok c3rec :=
  rfl

/-- Claim C3 (amended): the builder performs no transaction-state
precondition check. Whenever the origin-registry lookups it performs
succeed, it succeeds and returns a record in every transaction state
(none, live or aborted); the transaction-state errors live in the table
sink bdr_conflict_log_table instead. -/
theorem bdr_make_apply_conflict_no_tx_check (env : Env) (inc : Bool)
    (ct : BdrConflictType) (res : BdrConflictResolution) (rtx : Nat)
    (rel : Option RelInfo) (ltup : Option LocalSlot) (loid : Nat)
    (rtup : Option Composite) (lct : Int) (ae : Option ErrorData)
    (rn : BDRNodeId)
    (hr : env.fetchSysid env.sessionOrigin = some rn)
    (hl : loid = 0 ∨ ∃ n, env.fetchSysid loid = some n) :
    ∀ txs : TxState, ∃ rec,
      bdr_make_apply_conflict env txs inc ct res rtx rel ltup loid rtup lct
        ae = Except.ok rec := by
  intro txs
  rcases hl with rfl | ⟨n, hn⟩
  · refine ⟨bdr_make_apply_conflict_fields env txs inc ct res rtx rel ltup
      rtup lct ae rn env.myNodeId, ?_⟩
    simp [bdr_make_apply_conflict, bdr_fetch_sysid_via_node_id, hr,
      Bind.bind, Except.bind]
  · by_cases h0 : loid = 0
    · subst h0
      refine ⟨bdr_make_apply_conflict_fields env txs inc ct res rtx rel ltup
        rtup lct ae rn env.myNodeId, ?_⟩
      simp [bdr_make_apply_conflict, bdr_fetch_sysid_via_node_id, hr,
        Bind.bind, Except.bind]
    · refine ⟨bdr_make_apply_conflict_fields env txs inc ct res rtx rel ltup
        rtup lct ae rn n, ?_⟩
      simp [bdr_make_apply_conflict, bdr_fetch_sysid_via_node_id, hr, hn, h0,
        Bind.bind, Except.bind]

/-- Claim C3 (amended) witness: at env0 with a locally-originated tuple
the builder succeeds even inside an aborted transaction. -/
theorem bdr_make_apply_conflict_no_tx_check_witness :
    env0.fetchSysid env0.sessionOrigin = some ⟨22, 1, 16384⟩ ∧
    ∃ rec, bdr_make_apply_conflict env0 TxState.aborted true
      BdrConflictType.InsertInsert BdrConflictResolution.DefaultApplyChange
      904 none none 0 none 0 none = Except.ok rec :=
  ⟨rfl, bdr_make_apply_conflict_no_tx_check env0 true
    BdrConflictType.InsertInsert BdrConflictResolution.DefaultApplyChange 904
    none none 0 none 0 none ⟨22, 1, 16384⟩ rfl (Or.inl rfl)
    TxState.aborted⟩

/-- The tie-break order is asymmetric and total on distinct NodeIds:
exactly one direction of bdr_nodeid_tiebreak_lt holds. -/
theorem bdr_nodeid_tiebreak_lt_asymm_total (a b : BDRNodeId) (h : a ≠ b) :
    (bdr_nodeid_tiebreak_lt a b = true ∧ bdr_nodeid_tiebreak_lt b a = false) ∨
    (bdr_nodeid_tiebreak_lt a b = false ∧
      bdr_nodeid_tiebreak_lt b a = true) := by
  obtain ⟨s1, t1, d1⟩ := a
  obtain ⟨s2, t2, d2⟩ := b
  simp only [ne_eq, BDRNodeId.mk.injEq, not_and] at h
  by_cases hs : s1 = s2
  · subst hs
    by_cases ht : t1 = t2
    · subst ht
      have hd : d1 ≠ d2 := fun hd => h rfl rfl hd
      simp only [bdr_nodeid_tiebreak_lt, if_true, ite_true,
        decide_eq_true_eq, decide_eq_false_iff_not]
      omega
    · simp only [bdr_nodeid_tiebreak_lt, ht, Ne.symm ht, if_true, if_false,
        ite_true, ite_false, decide_eq_true_eq, decide_eq_false_iff_not]
      omega
  · simp only [bdr_nodeid_tiebreak_lt, hs, Ne.symm hs, if_false, ite_false,
      decide_eq_true_eq, decide_eq_false_iff_not]
    omega

/-- Claim C7: on equal commit timestamps and distinct origin NodeIds, the
last-update-wins decision is exactly one of KeepLocal/KeepRemote, the
remote change wins precisely when the remote NodeId is larger in the
fixed (sysid, timeline, dboid) lexicographic order, and swapping the two
sides yields the opposite resolution. -/
theorem bdr_last_update_wins_tiebreak (a b : BDRNodeId) (t : Int)
    (h : a ≠ b) :
    ((bdr_last_update_wins a b t t =
        BdrConflictResolution.LastUpdateWins_KeepRemote ∧
      bdr_last_update_wins a b t t ≠
        BdrConflictResolution.LastUpdateWins_KeepLocal) ∨
     (bdr_last_update_wins a b t t =
        BdrConflictResolution.LastUpdateWins_KeepLocal ∧
      bdr_last_update_wins a b t t ≠
        BdrConflictResolution.LastUpdateWins_KeepRemote)) ∧
    (bdr_last_update_wins a b t t =
        BdrConflictResolution.LastUpdateWins_KeepRemote ↔
      bdr_nodeid_tiebreak_lt a b = true) ∧
    (bdr_last_update_wins a b t t =
        BdrConflictResolution.LastUpdateWins_KeepRemote ↔
      bdr_last_update_wins b a t t =
        BdrConflictResolution.LastUpdateWins_KeepLocal) ∧
    (bdr_last_update_wins a b t t =
        BdrConflictResolution.LastUpdateWins_KeepLocal ↔
      bdr_last_update_wins b a t t =
        BdrConflictResolution.LastUpdateWins_KeepRemote) := by
  have hlt := lt_irrefl t
  rcases bdr_nodeid_tiebreak_lt_asymm_total a b h with ⟨h1, h2⟩ | ⟨h1, h2⟩ <;>
    simp [bdr_last_update_wins, hlt, h1, h2]

/-- Claim C7 witness: concrete distinct NodeIds (sysid 5 vs sysid 9) with
an equal timestamp; the theorem applies and the remote side with the
larger sysid wins. -/
theorem bdr_last_update_wins_tiebreak_witness :
    (⟨5, 1, 16384⟩ : BDRNodeId) ≠ ⟨9, 1, 16384⟩ ∧
    bdr_last_update_wins ⟨5, 1, 16384⟩ ⟨9, 1, 16384⟩ 100 100 =
      BdrConflictResolution.LastUpdateWins_KeepRemote ∧
    (bdr_last_update_wins ⟨5, 1, 16384⟩ ⟨9, 1, 16384⟩ 100 100 =
        BdrConflictResolution.LastUpdateWins_KeepRemote ↔
      bdr_last_update_wins ⟨9, 1, 16384⟩ ⟨5, 1, 16384⟩ 100 100 =
        BdrConflictResolution.LastUpdateWins_KeepLocal) :=
  ⟨by decide,
    ((bdr_last_update_wins_tiebreak ⟨5, 1, 16384⟩ ⟨9, 1, 16384⟩ 100
      (by decide)).2.1).mpr (by decide),
    (bdr_last_update_wins_tiebreak ⟨5, 1, 16384⟩ ⟨9, 1, 16384⟩ 100
      (by decide)).2.2.1⟩

/-- What a completed find_pkey_tuple run guarantees about the scan attempt
its result came from: the result is exactly what that fresh scan
observed, with no pending writer and (when locking) a clean lock. -/
def scanResultMatches (env : ScanEnv) (lock : Bool) (r : FindResult) : Prop :=
  match env.scans r.attempt with
  | ScanOutcome.notFound => r.found = false ∧ r.tuple = none
  | ScanOutcome.found t xw =>
    r.found = true ∧ r.tuple = some t ∧ xw = none ∧
      (lock = true → env.locks r.attempt = TMResult.tmOk)

/-- Every attempt strictly before the final one ended either in a
detected concurrent writer (whose xid was waited on and recorded) or, when
locking, in a TM_Updated lock result — and was followed by a full fresh
restart. -/
def earlierAttemptsRetried (env : ScanEnv) (lock : Bool) (lo : Nat)
    (r : FindResult) : Prop :=
  ∀ j, lo ≤ j → j < r.attempt →
    (∃ t x, env.scans j = ScanOutcome.found t (some x) ∧ x ∈ r.waits) ∨
    (lock = true ∧ ∃ t, env.scans j = ScanOutcome.found t none ∧
      env.locks j = TMResult.tmUpdated)

/-- Invariant of the retry loop: a successful return comes from a single
fresh scan attempt at index ≥ the starting index, accumulated waits are
preserved, the returned state matches that final attempt, and every
earlier attempt was abandoned for a concurrent writer or concurrent
update. -/
theorem find_pkey_tuple_loop_spec (env : ScanEnv) (lock : Bool) :
    ∀ (fuel k : Nat) (ws : List Nat) (r : FindResult),
      find_pkey_tuple_loop env lock fuel k ws = some (Except.ok r) →
      k ≤ r.attempt ∧ (∀ w, w ∈ ws → w ∈ r.waits) ∧
        scanResultMatches env lock r ∧ earlierAttemptsRetried env lock k r := by
  intro fuel
  induction fuel with
  | zero =>
    intro k ws r h
    simp [find_pkey_tuple_loop] at h
  | succ n ih =>
    intro k ws r h
    rw [find_pkey_tuple_loop] at h
    cases hs : env.scans k with
    | notFound =>
      simp only [hs] at h
      obtain rfl : (⟨false, none, k, ws⟩ : FindResult) = r := by
        simpa using h
      refine ⟨Nat.le_refl k, fun w hw => hw, ?_, ?_⟩
      · simp [scanResultMatches, hs]
      · intro j hkj hjk
        exact absurd (Nat.lt_of_le_of_lt hkj hjk) (lt_irrefl k)
    | found t xw =>
      simp only [hs] at h
      cases xw with
      | some x =>
        obtain ⟨h1, h2, h3, h4⟩ := ih (k + 1) (ws ++ [x]) r h
        refine ⟨by omega, fun w hw => h2 w (by simp [hw]), h3, ?_⟩
        intro j hkj hjk
        rcases Nat.eq_or_lt_of_le hkj with rfl | hlt
        · exact Or.inl ⟨t, x, hs, h2 x (by simp)⟩
        · exact h4 j hlt hjk
      | none =>
        by_cases hlock : lock
        · rw [if_pos hlock] at h
          cases hl : env.locks k with
          | tmOk =>
            simp only [hl] at h
            obtain rfl : (⟨true, some t, k, ws⟩ : FindResult) = r := by
              simpa using h
            refine ⟨Nat.le_refl k, fun w hw => hw, ?_, ?_⟩
            · simp [scanResultMatches, hs, hl]
            · intro j hkj hjk
              exact absurd (Nat.lt_of_le_of_lt hkj hjk) (lt_irrefl k)
          | tmUpdated =>
            simp only [hl] at h
            obtain ⟨h1, h2, h3, h4⟩ := ih (k + 1) ws r h
            refine ⟨by omega, h2, h3, ?_⟩
            intro j hkj hjk
            rcases Nat.eq_or_lt_of_le hkj with rfl | hlt
            · exact Or.inr ⟨hlock, t, hs, hl⟩
            · exact h4 j hlt hjk
          | tmOther c =>
            simp only [hl] at h
            simp at h
        · rw [if_neg hlock] at h
          obtain rfl : (⟨true, some t, k, ws⟩ : FindResult) = r := by
            simpa using h
          refine ⟨Nat.le_refl k, fun w hw => hw, ?_, ?_⟩
          · simp [scanResultMatches, hs, hlock]
          · intro j hkj hjk
            exact absurd (Nat.lt_of_le_of_lt hkj hjk) (lt_irrefl k)

/-- Claim C5: whatever find_pkey_tuple returns comes from one fresh scan
attempt on which no concurrently-in-progress writer was pending and (when
locking) the lock query reported TM_Ok, while every earlier attempt was
abandoned — after waiting on the detected writer's xid (recorded in
`waits`) or on a TM_Updated concurrent update — by a restart from scratch
at the next fresh scan index, never by resuming the interrupted scan. -/
theorem find_pkey_tuple_restarts_from_scratch (env : ScanEnv) (lock : Bool)
    (fuel : Nat) (r : FindResult)
    (h : find_pkey_tuple env lock fuel = some (Except.ok r)) :
    scanResultMatches env lock r ∧ earlierAttemptsRetried env lock 0 r := by
  obtain ⟨-, -, h3, h4⟩ :=
    find_pkey_tuple_loop_spec env lock fuel 0 [] r h
  exact ⟨h3, h4⟩

/-- Scan environment of the Claim C5 witness: the first fresh scan finds
tuple 5 with in-progress writer 7; the second (after the wait and restart)
finds tuple 6 cleanly and locks it with TM_Ok. -/
def c5env : ScanEnv where
  scans := fun k =>
    if k = 0 then ScanOutcome.found 5 (some 7)
    else if k = 1 then ScanOutcome.found 6 none
    else ScanOutcome.notFound
  locks := fun k => if k = 1 then TMResult.tmOk else TMResult.tmUpdated

/-- Claim C5 witness: the concrete run waits on xid 7, restarts, and
returns tuple 6 from the second fresh scan. -/
theorem find_pkey_tuple_restarts_from_scratch_witness :
    find_pkey_tuple c5env true 10 =
      some (Except.ok (⟨true, some 6, 1, [7]⟩ : FindResult)) ∧
    (scanResultMatches c5env true ⟨true, some 6, 1, [7]⟩ ∧
      earlierAttemptsRetried c5env true 0 ⟨true, some 6, 1, [7]⟩) :=
  ⟨rfl, find_pkey_tuple_restarts_from_scratch c5env true 10
    ⟨true, some 6, 1, [7]⟩ rfl⟩

/-- A conflict record whose local tuple's rowtype (7777) is unknown to the
rowtype cache, so rendering its PKEY for the server log raises an error. -/
def c1conflict : BdrApplyConflict :=
  { zeroConflict with
    conflict_type := BdrConflictType.InsertInsert
    conflict_resolution := BdrConflictResolution.LastUpdateWins_KeepRemote
    local_tuple_null := false
    local_tuple := some ⟨7777, -1, [some ⟨false, "1"⟩]⟩ }

/-- Claim C1 counterexample: a type-cache (rowtype-descriptor) lookup
failure inside the primary-key rendering is not caught and downgraded to
a no-op — bdr_conflict_log_serverlog propagates it as an error, which
aborts the enclosing apply transaction. -/
theorem bdr_conflict_log_serverlog_error_cex :
    bdr_conflict_log_serverlog env0 c1conflict =
      Except.error "cache lookup failed for rowtype 7777" :=
  rfl

/-- Claim C1 (amended): the server-log destination contains no error
handler; any error raised while rendering the diagnostic line's PKEY
tuple (rowtype-descriptor lookup, type-cache lookup, or output-function
failure) propagates unchanged out of bdr_conflict_log_serverlog and
aborts the enclosing apply transaction. -/
theorem bdr_conflict_log_serverlog_error_propagates (env : Env)
    (conflict : BdrApplyConflict) (e : String)
    (h : serverlogKey env conflict = Except.error e) :
    bdr_conflict_log_serverlog env conflict = Except.error e := by
  simp [bdr_conflict_log_serverlog, h, Bind.bind, Except.bind]

/-- Claim C1 (amended) witness: at the concrete record with the unknown
rowtype, the rendering error is exactly what the sink returns. -/
theorem bdr_conflict_log_serverlog_error_propagates_witness :
    serverlogKey env0 c1conflict =
      Except.error "cache lookup failed for rowtype 7777" ∧
    bdr_conflict_log_serverlog env0 c1conflict =
      Except.error "cache lookup failed for rowtype 7777" :=
  ⟨rfl, bdr_conflict_log_serverlog_error_propagates env0 c1conflict
    "cache lookup failed for rowtype 7777" rfl⟩

/-- An UnhandledTxAbort conflict record (with a null local tuple, as an
apply-error conflict has no locally fetched row). -/
def c4utaConflict : BdrApplyConflict :=
  { zeroConflict with
    conflict_type := BdrConflictType.UnhandledTxAbort
    conflict_resolution := BdrConflictResolution.UnhandledTxAbort
    local_tuple_null := true }

/-- Claim C4 counterexample: for an UnhandledTxAbort record the
server-log destination emits no diagnostic line at all (its switch case
is empty), not exactly one. -/
theorem bdr_conflict_log_serverlog_one_line_cex :
    bdr_conflict_log_serverlog env0 c4utaConflict = Except.ok [] :=
  rfl

/-- `strContains l x`: x occurs as a substring of l. -/
def strContains (l x : String) : Prop := ∃ u v, l = u ++ x ++ v

/-- Claim C4 (amended): provided the PKEY rendering raises no error, the
server-log destination emits exactly one diagnostic line for the five
row-conflict types and none for UnhandledTxAbort; the line contains the
resolution name and the PKEY rendering, and for the insert/update family
(InsertInsert, InsertUpdate, UpdateUpdate) it contains the identity of
the node that last wrote the local tuple (not the remote node the change
came from); the delete family's line carries no node identity. -/
theorem bdr_conflict_log_serverlog_lines (env : Env)
    (conflict : BdrApplyConflict) (key : String)
    (h : serverlogKey env conflict = Except.ok key) :
    (conflict.conflict_type = BdrConflictType.UnhandledTxAbort →
      bdr_conflict_log_serverlog env conflict = Except.ok []) ∧
    (conflict.conflict_type ≠ BdrConflictType.UnhandledTxAbort →
      ∃ line, bdr_conflict_log_serverlog env conflict = Except.ok [line] ∧
        strContains line
          (bdr_conflict_resolution_get_name conflict.conflict_resolution) ∧
        strContains line key ∧
        ((conflict.conflict_type = BdrConflictType.InsertInsert ∨
          conflict.conflict_type = BdrConflictType.InsertUpdate ∨
          conflict.conflict_type = BdrConflictType.UpdateUpdate) →
          strContains line
            (fmtNodeIdWithName env conflict.local_tuple_origin_node))) := by
  cases hct : conflict.conflict_type with
  | InsertInsert =>
    refine ⟨fun hc => (nomatch hc), fun _ => ?_⟩
    simp only [bdr_conflict_log_serverlog, h, hct, Bind.bind, Except.bind,
      reduceIte]
    refine ⟨_, rfl, ?_, ?_, fun _ => ?_⟩
    · exact ⟨"CONFLICT: remote " ++ "INSERT" ++ ": row was previously " ++
        "INSERTed" ++ " at node " ++
        fmtNodeIdWithName env conflict.local_tuple_origin_node ++
        ". Resolution: ", "; PKEY:" ++ key, by simp [String.append_assoc]⟩
    · exact ⟨"CONFLICT: remote " ++ "INSERT" ++ ": row was previously " ++
        "INSERTed" ++ " at node " ++
        fmtNodeIdWithName env conflict.local_tuple_origin_node ++
        ". Resolution: " ++
        bdr_conflict_resolution_get_name conflict.conflict_resolution ++
        "; PKEY:", "", by simp [String.append_assoc]⟩
    · exact ⟨"CONFLICT: remote " ++ "INSERT" ++ ": row was previously " ++
        "INSERTed" ++ " at node ", ". Resolution: " ++
        bdr_conflict_resolution_get_name conflict.conflict_resolution ++
        "; PKEY:" ++ key, by simp [String.append_assoc]⟩
  | InsertUpdate =>
    refine ⟨fun hc => (nomatch hc), fun _ => ?_⟩
    simp only [bdr_conflict_log_serverlog, h, hct, Bind.bind, Except.bind,
      reduceIte]
    refine ⟨_, rfl, ?_, ?_, fun _ => ?_⟩
    · exact ⟨"CONFLICT: remote " ++ "INSERT" ++ ": row was previously " ++
        "UPDATEd" ++ " at node " ++
        fmtNodeIdWithName env conflict.local_tuple_origin_node ++
        ". Resolution: ", "; PKEY:" ++ key, by simp [String.append_assoc]⟩
    · exact ⟨"CONFLICT: remote " ++ "INSERT" ++ ": row was previously " ++
        "UPDATEd" ++ " at node " ++
        fmtNodeIdWithName env conflict.local_tuple_origin_node ++
        ". Resolution: " ++
        bdr_conflict_resolution_get_name conflict.conflict_resolution ++
        "; PKEY:", "", by simp [String.append_assoc]⟩
    · exact ⟨"CONFLICT: remote " ++ "INSERT" ++ ": row was previously " ++
        "UPDATEd" ++ " at node ", ". Resolution: " ++
        bdr_conflict_resolution_get_name conflict.conflict_resolution ++
        "; PKEY:" ++ key, by simp [String.append_assoc]⟩
  | UpdateUpdate =>
    refine ⟨fun hc => (nomatch hc), fun _ => ?_⟩
    simp only [bdr_conflict_log_serverlog, h, hct, Bind.bind, Except.bind,
      reduceIte]
    refine ⟨_, rfl, ?_, ?_, fun _ => ?_⟩
    · exact ⟨"CONFLICT: remote " ++ "UPDATE" ++ ": row was previously " ++
        "UPDATEd" ++ " at node " ++
        fmtNodeIdWithName env conflict.local_tuple_origin_node ++
        ". Resolution: ", "; PKEY:" ++ key, by simp [String.append_assoc]⟩
    · exact ⟨"CONFLICT: remote " ++ "UPDATE" ++ ": row was previously " ++
        "UPDATEd" ++ " at node " ++
        fmtNodeIdWithName env conflict.local_tuple_origin_node ++
        ". Resolution: " ++
        bdr_conflict_resolution_get_name conflict.conflict_resolution ++
        "; PKEY:", "", by simp [String.append_assoc]⟩
    · exact ⟨"CONFLICT: remote " ++ "UPDATE" ++ ": row was previously " ++
        "UPDATEd" ++ " at node ", ". Resolution: " ++
        bdr_conflict_resolution_get_name conflict.conflict_resolution ++
        "; PKEY:" ++ key, by simp [String.append_assoc]⟩
  | UpdateDelete =>
    refine ⟨fun hc => (nomatch hc), fun _ => ?_⟩
    simp only [bdr_conflict_log_serverlog, h, hct, Bind.bind, Except.bind,
      reduceIte]
    refine ⟨_, rfl, ?_, ?_, fun hf => ?_⟩
    · exact ⟨"CONFLICT: remote " ++ "UPDATE" ++
        ": could not find existing row. Resolution: ", "; PKEY:" ++ key,
        by simp [String.append_assoc]⟩
    · exact ⟨"CONFLICT: remote " ++ "UPDATE" ++
        ": could not find existing row. Resolution: " ++
        bdr_conflict_resolution_get_name conflict.conflict_resolution ++
        "; PKEY:", "", by simp [String.append_assoc]⟩
    · rcases hf with hf | hf | hf <;> exact nomatch hf
  | DeleteDelete =>
    refine ⟨fun hc => (nomatch hc), fun _ => ?_⟩
    simp only [bdr_conflict_log_serverlog, h, hct, Bind.bind, Except.bind,
      reduceIte]
    refine ⟨_, rfl, ?_, ?_, fun hf => ?_⟩
    · exact ⟨"CONFLICT: remote " ++ "DELETE" ++
        ": could not find existing row. Resolution: ", "; PKEY:" ++ key,
        by simp [String.append_assoc]⟩
    · exact ⟨"CONFLICT: remote " ++ "DELETE" ++
        ": could not find existing row. Resolution: " ++
        bdr_conflict_resolution_get_name conflict.conflict_resolution ++
        "; PKEY:", "", by simp [String.append_assoc]⟩
    · rcases hf with hf | hf | hf <;> exact nomatch hf
  | UnhandledTxAbort =>
    refine ⟨fun _ => ?_, fun hc => absurd rfl hc⟩
    simp only [bdr_conflict_log_serverlog, h, hct, Bind.bind, Except.bind]

/-- An InsertInsert conflict record with a null local tuple, whose PKEY
rendering trivially succeeds. -/
def c4okConflict : BdrApplyConflict :=
  { zeroConflict with
    conflict_type := BdrConflictType.InsertInsert
    conflict_resolution := BdrConflictResolution.LastUpdateWins_KeepRemote
    local_tuple_null := true
    local_tuple_origin_node := ⟨22, 1, 16384⟩ }

/-- Claim C4 (amended) witness: the theorem applied at a concrete
InsertInsert record whose rendering succeeds with an empty key. -/
theorem bdr_conflict_log_serverlog_lines_witness :
    serverlogKey env0 c4okConflict = Except.ok "" ∧
    (c4okConflict.conflict_type = BdrConflictType.UnhandledTxAbort →
      bdr_conflict_log_serverlog env0 c4okConflict = Except.ok []) ∧
    (c4okConflict.conflict_type ≠ BdrConflictType.UnhandledTxAbort →
      ∃ line, bdr_conflict_log_serverlog env0 c4okConflict =
          Except.ok [line] ∧
        strContains line
          (bdr_conflict_resolution_get_name
            c4okConflict.conflict_resolution) ∧
        strContains line "" ∧
        ((c4okConflict.conflict_type = BdrConflictType.InsertInsert ∨
          c4okConflict.conflict_type = BdrConflictType.InsertUpdate ∨
          c4okConflict.conflict_type = BdrConflictType.UpdateUpdate) →
          strContains line
            (fmtNodeIdWithName env0 c4okConflict.local_tuple_origin_node))) :=
  ⟨rfl, bdr_conflict_log_serverlog_lines env0 c4okConflict "" rfl⟩

/-- Claim C2: in a live transaction with bdr_log_conflicts_to_table
enabled, one call to bdr_conflict_log_table appends exactly one row to
the conflict-history store; its conflict_type column (index 11) and
resolution column (index 12) hold the enum datums of the record's
conflict_type and conflict_resolution fields, and both enum-label
encodings are injective, so the columns determine the fields. With the
flag disabled (and a live transaction) no row is inserted. -/
theorem bdr_conflict_log_table_completeness (env : Env)
    (st : List HistoryRow) (conflict : BdrApplyConflict) (cto cro : Nat)
    (ltc rtc : Bool × Datum)
    (hct : env.enumOid env.conflictTypeOid
      (bdr_conflict_type_get_name conflict.conflict_type) = some cto)
    (hcr : env.enumOid env.conflictResolutionOid
      (bdr_conflict_resolution_get_name conflict.conflict_resolution) =
      some cro)
    (hlt : bdr_conflict_row_to_json env conflict.local_tuple
      conflict.local_tuple_null = Except.ok ltc)
    (hrt : bdr_conflict_row_to_json env conflict.remote_tuple
      conflict.remote_tuple_null = Except.ok rtc)
    (hidx : env.indexRecheck = false) :
    (∃ row : HistoryRow,
      bdr_conflict_log_table env TxState.live true st conflict =
        Except.ok (st ++ [row]) ∧
      row.get? 11 = some (false, Datum.oidval cto) ∧
      row.get? 12 = some (false, Datum.oidval cro) ∧
      row.length = 35) ∧
    bdr_conflict_log_table env TxState.live false st conflict =
      Except.ok st ∧
    (∀ t t' : BdrConflictType,
      bdr_conflict_type_get_name t = bdr_conflict_type_get_name t' →
      t = t') ∧
    (∀ r r' : BdrConflictResolution,
      bdr_conflict_resolution_get_name r =
        bdr_conflict_resolution_get_name r' → r = r') := by
  refine ⟨?_, rfl, ?_, ?_⟩
  · cases hae : conflict.apply_error with
    | none =>
      simp only [bdr_conflict_log_table, bdr_conflict_type_get_datum,
        bdr_conflict_resolution_get_datum, hct, hcr, hlt, hrt, hidx, hae,
        Bind.bind, Except.bind, reduceIte, Bool.not_true, Bool.not_false]
      exact ⟨_, rfl, rfl, rfl, rfl⟩
    | some edata =>
      simp only [bdr_conflict_log_table, bdr_conflict_type_get_datum,
        bdr_conflict_resolution_get_datum, hct, hcr, hlt, hrt, hidx, hae,
        Bind.bind, Except.bind, reduceIte, Bool.not_true, Bool.not_false]
      exact ⟨_, rfl, rfl, rfl, rfl⟩
  · intro t t' hh
    cases t <;> cases t' <;> simp_all [bdr_conflict_type_get_name]
  · intro r r' hh
    cases r <;> cases r' <;> simp_all [bdr_conflict_resolution_get_name]

/-- The conflict record of the Claim C2 witness: an InsertInsert conflict
resolved by last-update-wins-keep-remote, both tuples null. -/
def c2conflict : BdrApplyConflict :=
  { zeroConflict with
    conflict_type := BdrConflictType.InsertInsert
    conflict_resolution := BdrConflictResolution.LastUpdateWins_KeepRemote
    local_tuple_null := true
    remote_tuple_null := true }

/-- Claim C2 witness: the concrete insert appends one row with the enum
oids 611 and 622 that env0 assigns to the record's conflict type and
resolution. -/
theorem bdr_conflict_log_table_completeness_witness :
    env0.enumOid env0.conflictTypeOid
      (bdr_conflict_type_get_name c2conflict.conflict_type) = some 611 ∧
    env0.enumOid env0.conflictResolutionOid
      (bdr_conflict_resolution_get_name c2conflict.conflict_resolution) =
      some 622 ∧
    env0.indexRecheck = false ∧
    ((∃ row : HistoryRow,
        bdr_conflict_log_table env0 TxState.live true [] c2conflict =
          Except.ok ([] ++ [row]) ∧
        row.get? 11 = some (false, Datum.oidval 611) ∧
        row.get? 12 = some (false, Datum.oidval 622) ∧
        row.length = 35) ∧
      bdr_conflict_log_table env0 TxState.live false [] c2conflict =
        Except.ok [] ∧
      (∀ t t' : BdrConflictType,
        bdr_conflict_type_get_name t = bdr_conflict_type_get_name t' →
        t = t') ∧
      (∀ r r' : BdrConflictResolution,
        bdr_conflict_resolution_get_name r =
          bdr_conflict_resolution_get_name r' → r = r')) :=
  ⟨rfl, rfl, rfl,
    bdr_conflict_log_table_completeness env0 [] c2conflict 611 622
      (true, Datum.zero) (true, Datum.zero) rfl rfl rfl rfl rfl⟩

end BDR
